import Mathlib

/-!
A shallow embedding of `rollyourown/seo/meta_models.py` (django-seo).

The embedding covers:
* `MetadataBaseModel._resolve_value` — the value-resolution fallback chain
  (explicit editable value → `populate_from` dispatch → attribute lookup on
  the metadata group object);
* `_resolve` — the template-substitution pass;
* the per-plugin `_resolve_value` overrides (View and Model plugins) and the
  inherited behaviour of the Path and ModelInstance plugins;
* `BaseManager.on_current_site` / `for_site_and_language` — the site- and
  language-scoped queryset filters, with the SQL `WHERE` clause
  `_site_id IS NULL OR _site_id=%s` modelled as a predicate on records;
* `MetadataPlugin.get_unique_together` and the four plugins' declared
  `unique_together` key sets and field-level `unique=` flags;
* `ViewMetadataPlugin.get_from_path`.

Python values flowing through the resolution chain are modelled by `PyVal`;
callables are modelled symbolically (by a name looked up in a call
environment `env : String → List CallArg → PyVal`) so that the calling
convention — zero arguments for a bound method, the metadata group object
as single argument otherwise — stays observable. Python `None` is
`PyVal.none`; truthiness follows Python (`None` and the empty string are
falsy). The unbounded recursion of `_resolve_value` through `populate_from`
is modelled with explicit fuel: `Option.none` as overall result means the
fuel ran out (non-termination of the Python recursion), while a returned
Python value (including Python `None`) is `Option.some`.
-/

namespace DjangoSeo

/-- A Python value as seen by the resolution chain: `None`, a string (the
content of a metadata field), or a callable, represented symbolically by a
flag recording whether `getattr(f, 'im_self', None)` is truthy (a bound
method) and a name to be interpreted by a call environment. -/
inductive PyVal where
  | none
  | str (s : String)
  | func (bound : Bool) (fname : String)
deriving DecidableEq, Repr

/-- The single kind of argument the code ever passes to a callable:
the metadata group object `self._metadata`. -/
inductive CallArg where
  | metadata
deriving DecidableEq, Repr

/-- Python truthiness for `PyVal`: `None` and `""` are falsy, any other
string and any callable are truthy. -/
def PyVal.truthy : PyVal → Bool
  | .none => false
  | .str s => s ≠ ""
  | .func _ _ => true

/-- `callable(value)` for `PyVal`. -/
def PyVal.isCallable : PyVal → Bool
  | .func _ _ => true
  | _ => false

/-- The `populate_from` policy of a metadata element, as dispatched on by
`MetadataBaseModel._resolve_value` (meta_models.py lines 46-55): a callable,
a `Literal` wrapper, `NotSet`, or any other value — which the code feeds
back into `_resolve_value` as another element name (after `str()`). -/
inductive PopulateFrom where
  | notSet
  | literal (v : PyVal)
  | callable (bound : Bool) (fname : String)
  | name (s : String)
deriving DecidableEq, Repr

/-- A registered metadata element: its `editable` flag and its
`populate_from` policy. -/
structure Element where
  editable : Bool
  populateFrom : PopulateFrom
deriving DecidableEq, Repr

/-- The metadata group object `self._metadata`: its registered elements
(`self._metadata.elements`, a dict from names) and its other attributes, as
found by `getattr(self._metadata, name)`. -/
structure MetadataGroup where
  elements : List (String × Element)
  attrs : List (String × PyVal)
deriving DecidableEq, Repr

/-- `name in self._metadata.elements` / `self._metadata.elements[name]`. -/
def lookupElem (md : MetadataGroup) (name : String) : Option Element :=
  (md.elements.find? (fun p => p.1 = name)).map (fun p => p.2)

/-- `getattr(self._metadata, name)`, `Option.none` meaning
`AttributeError`. -/
def lookupAttr (md : MetadataGroup) (name : String) : Option PyVal :=
  (md.attrs.find? (fun p => p.1 = name)).map (fun p => p.2)

/-- Invoke a callable the way `_resolve_value` does (meta_models.py lines
47-51 and 63-67): with no arguments when it is a bound method
(`getattr(f, 'im_self', None)` truthy), otherwise with the metadata group
object as its single argument. -/
def callPy (env : String → List CallArg → PyVal) (bound : Bool)
    (fname : String) : PyVal :=
  env fname (if bound then [] else [CallArg.metadata])

/-- The tail of `_resolve_value` (meta_models.py lines 57-68): look for an
attribute on the metadata group object; a raised `AttributeError` is
swallowed and the function falls off its end, returning Python `None`; a
callable attribute is invoked (bound methods with no arguments, anything
else with the metadata group). -/
def attrFallback (env : String → List CallArg → PyVal) (md : MetadataGroup)
    (name : String) : PyVal :=
  match lookupAttr md name with
  | Option.none => PyVal.none
  | Option.some v =>
    match v with
    | .func bound fname => callPy env bound fname
    | _ => v

/-- `MetadataBaseModel._resolve_value` (meta_models.py lines 33-68).
`inst` gives `getattr(self, name)`, the explicit per-record field values.
The `fuel` argument bounds the recursion through `populate_from`; running
out of fuel yields `Option.none` (the Python code would recurse forever /
exhaust the stack), while a normal return of the Python value `v`
(possibly `None`) is `Option.some v`. -/
def resolve_value (env : String → List CallArg → PyVal) (md : MetadataGroup)
    (inst : String → PyVal) : Nat → String → Option PyVal
  | 0, _ => Option.none
  | fuel + 1, name =>
    match lookupElem md name with
    | Option.some el =>
      if el.editable && (inst name).truthy then
        Option.some (inst name)
      else
        match el.populateFrom with
        | .callable bound fname => Option.some (callPy env bound fname)
        | .literal v => Option.some v
        | .name s => resolve_value env md inst fuel s
        | .notSet => Option.some (attrFallback env md name)
    | Option.none => Option.some (attrFallback env md name)

/-- A model instance bound into a template context (`_resolve`, line 260:
`context[model_instance._meta.module_name] = model_instance`). Only its
identity and its module name matter for the embedding. -/
structure ModelInst where
  moduleName : String
  tag : Nat
deriving DecidableEq, Repr

/-- A value stored in a template `Context`: a plain value or a bound model
instance. -/
inductive CtxVal where
  | pv (v : PyVal)
  | inst (mi : ModelInst)
deriving DecidableEq, Repr

/-- A template `Context`, as an association list (later bindings shadow
earlier ones, so `context[k] = v` is modelled by consing). -/
abbrev Ctx := List (String × CtxVal)

/-- The context actually handed to `Template(value).render` by `_resolve`
(meta_models.py lines 257-260): the given context, or a fresh empty
`Context()` when none is given, with the model instance (when given) bound
under its model's module name. -/
def renderCtx (modelInstance : Option ModelInst) (context : Option Ctx) :
    Ctx :=
  let ctx := context.getD []
  match modelInstance with
  | Option.some mi => (mi.moduleName, CtxVal.inst mi) :: ctx
  | Option.none => ctx

/-- The Python test `"{" in value` for a string `value`: the string
contains the character `{`, via its character list. -/
def containsBrace (s : String) : Bool :=
  s.data.contains '{'

/-- `_resolve(value, model_instance=None, context=None)` (meta_models.py
lines 252-262). Template rendering itself belongs to the web framework, so
it is abstracted as a function `render` from the template source and the
context to the rendered string. Rendering happens exactly when the value is
a string containing the character `{`; every other value is passed through
unchanged. -/
def pyResolve (render : String → Ctx → String) (value : PyVal)
    (modelInstance : Option ModelInst) (context : Option Ctx) : PyVal :=
  match value with
  | .str s =>
    if containsBrace s then
      .str (render s (renderCtx modelInstance context))
    else value
  | _ => value

/-- `_resolve_value` as inherited, unchanged, by the Path plugin's model
(`PathMetadataBase`, meta_models.py lines 130-143, which defines no
override). -/
def pathResolveValue (env : String → List CallArg → PyVal)
    (md : MetadataGroup) (inst : String → PyVal) (fuel : Nat)
    (name : String) : Option PyVal :=
  resolve_value env md inst fuel name

/-- `_resolve_value` as inherited, unchanged, by the ModelInstance plugin's
model (`ModelInstanceMetadataBase`, meta_models.py lines 194-210, which
defines no override). -/
def modelInstanceResolveValue (env : String → List CallArg → PyVal)
    (md : MetadataGroup) (inst : String → PyVal) (fuel : Nat)
    (name : String) : Option PyVal :=
  resolve_value env md inst fuel name

/-- `ViewMetadataBase._resolve_value` (meta_models.py lines 171-173): the
inherited resolution, then `_resolve(value, context=self.__context)` with
the ad-hoc context dictionary installed by `_set_context`. The fuel
`Option` layer is transparent to the template pass. -/
def viewResolveValue (env : String → List CallArg → PyVal)
    (md : MetadataGroup) (inst : String → PyVal)
    (render : String → Ctx → String) (ctx : Ctx) (fuel : Nat)
    (name : String) : Option PyVal :=
  (resolve_value env md inst fuel name).map
    (fun v => pyResolve render v Option.none (Option.some ctx))

/-- `ModelMetadataBase._resolve_value` (meta_models.py lines 241-243): the
inherited resolution, then `_resolve(value, self.__instance)` with the
model instance installed by `_set_context`. -/
def modelResolveValue (env : String → List CallArg → PyVal)
    (md : MetadataGroup) (inst : String → PyVal)
    (render : String → Ctx → String) (mi : ModelInst) (fuel : Nat)
    (name : String) : Option PyVal :=
  (resolve_value env md inst fuel name).map
    (fun v => pyResolve render v (Option.some mi) Option.none)

/-- The `populate_from` reference graph over element names: `pfEdge md a b`
holds when element `a` falls back to resolving element name `b`
(meta_models.py line 55). -/
def pfEdge (md : MetadataGroup) (a b : String) : Prop :=
  ∃ el, lookupElem md a = Option.some el ∧ el.populateFrom = .name b

/-- Acyclicity of the `populate_from` reference graph, stated as the
existence of a rank function decreasing along every edge (equivalent to
acyclicity for the finite edge set drawn from the registered elements). -/
def pfAcyclic (md : MetadataGroup) : Prop :=
  ∃ rank : String → Nat, ∀ a b, pfEdge md a b → rank b < rank a

/-! ### Manager: site and language scoping (meta_models.py lines 71-87) -/

/-- A persisted metadata record as far as the manager's filters are
concerned: its `_site_id` column (NULL allowed), its `_language` column
(NULL allowed), and an id to tell records apart. -/
structure SeoRecord where
  siteId : Option Nat
  language : Option String
  rid : Nat
deriving DecidableEq, Repr

/-- The `site` argument of `on_current_site`: absent (`None`), a `Site`
instance, or a domain string. -/
inductive SiteArg where
  | noArg
  | siteInstance (id : Nat)
  | domainStr (s : String)
deriving DecidableEq, Repr

/-- The value Python binds to `site_id` and passes as the SQL parameter:
a site id, or — when the domain string is empty, so that
`site and Site.objects.get(domain=site).id` short-circuits (line 76) — the
empty string itself. -/
inductive SqlParam where
  | intId (n : Nat)
  | emptyStr
deriving DecidableEq, Repr

/-- `Site.objects.get(domain=d)`, over a sites table of (id, domain) rows;
`Option.none` models the raised `DoesNotExist`. -/
def findSiteByDomain (sites : List (Nat × String)) (d : String) :
    Option Nat :=
  (sites.find? (fun p => p.2 = d)).map (fun p => p.1)

/-- The computation of `site_id` in `on_current_site` (meta_models.py lines
73-78). `Except.error ()` models the `DoesNotExist` escaping from
`Site.objects.get(domain=site)`. -/
def onCurrentSiteParam (sites : List (Nat × String)) (defaultSiteId : Nat) :
    SiteArg → Except Unit SqlParam
  | .siteInstance i => .ok (.intId i)
  | .domainStr s =>
    if s = "" then .ok .emptyStr
    else
      match findSiteByDomain sites s with
      | Option.some i => .ok (.intId i)
      | Option.none => .error ()
  | .noArg => .ok (.intId defaultSiteId)

/-- The SQL clause `_site_id IS NULL OR _site_id=%s` evaluated on one
record. An integer `_site_id` never compares equal to the empty-string
parameter. -/
def siteWhere (p : SqlParam) (r : SeoRecord) : Bool :=
  match r.siteId with
  | Option.none => true
  | Option.some m =>
    match p with
    | .intId n => n = m
    | .emptyStr => false

/-- `BaseManager.on_current_site` (meta_models.py lines 72-81), with the
queryset modelled as the list of all records filtered by the `WHERE`
clause. -/
def onCurrentSite (sites : List (Nat × String)) (defaultSiteId : Nat)
    (records : List SeoRecord) (arg : SiteArg) :
    Except Unit (List SeoRecord) :=
  (onCurrentSiteParam sites defaultSiteId arg).map
    (fun p => records.filter (siteWhere p))

/-- `BaseManager.for_site_and_language` (meta_models.py lines 83-87): the
site-scoped queryset, further filtered by `_language=language` when
`language` is truthy (non-`None` and non-empty). -/
def for_site_and_language (sites : List (Nat × String))
    (defaultSiteId : Nat) (records : List SeoRecord) (arg : SiteArg)
    (language : Option String) : Except Unit (List SeoRecord) :=
  (onCurrentSite sites defaultSiteId records arg).map
    (fun qs =>
      match language with
      | Option.some l => if l ≠ "" then qs.filter (fun r => r.language = Option.some l) else qs
      | Option.none => qs)

/-! ### Plugins: unique keys and path lookup -/

/-- `MetadataPlugin.get_unique_together` (meta_models.py lines 94-103):
each declared key set, extended with `_site` when `use_sites` and with
`_language` when `use_i18n`, in that order. -/
def get_unique_together (uniqueTogether : List (List String))
    (useSites useI18n : Bool) : List (List String) :=
  uniqueTogether.map (fun utSet =>
    let utSet := if useSites then utSet ++ ["_site"] else utSet
    if useI18n then utSet ++ ["_language"] else utSet)

/-- `PathMetadataPlugin.unique_together` (meta_models.py line 124). -/
def pathUniqueTogether : List (List String) := [["_path"]]

/-- `ViewMetadataPlugin.unique_together` (meta_models.py line 150). -/
def viewUniqueTogether : List (List String) := [["_view"]]

/-- `ModelInstanceMetadataPlugin.unique_together` (line 188). -/
def modelInstanceUniqueTogether : List (List String) :=
  [["_path"], ["_content_type", "_object_id"]]

/-- `ModelMetadataPlugin.unique_together` (meta_models.py line 218). -/
def modelUniqueTogether : List (List String) := [["_content_type"]]

/-- The field-level `unique=` flag of `PathMetadataBase._path` (line 131):
`unique=not (options.use_sites or options.use_i18n)`. -/
def pathFieldUnique (useSites useI18n : Bool) : Bool :=
  !(useSites || useI18n)

/-- The field-level `unique=` flag of `ViewMetadataBase._view` (line 160). -/
def viewFieldUnique (useSites useI18n : Bool) : Bool :=
  !(useSites || useI18n)

/-- The field-level `unique=` flag of
`ModelInstanceMetadataBase._path` (meta_models.py line 195). -/
def modelInstancePathFieldUnique (useSites useI18n : Bool) : Bool :=
  !(useSites || useI18n)

/-- A view-keyed metadata record, as queried by
`ViewMetadataPlugin.get_from_path`. -/
structure ViewRecord where
  view : String
  rid : Nat
deriving DecidableEq, Repr

/-- The outcome of `queryset.get(...)`: the record, or the raised
exception. -/
inductive GetError where
  | doesNotExist
  | multipleReturned
deriving DecidableEq, Repr

/-- Django `queryset.get(_view=name)` over a queryset modelled as a list:
the unique matching record, `DoesNotExist` when none matches,
`MultipleObjectsReturned` when several do. -/
def querysetGetView (qs : List ViewRecord) (name : String) :
    Except GetError ViewRecord :=
  match qs.filter (fun r => r.view = name) with
  | [] => .error .doesNotExist
  | [r] => .ok r
  | _ :: _ :: _ => .error .multipleReturned

/-- `ViewMetadataPlugin.get_from_path` (meta_models.py lines 152-156).
`resolveToName` abstracts `resolve_to_name` from
`rollyourown.seo.utils` (URL resolution, external to this module):
`Option.none` means the path resolves to no named view, in which case the
model's `DoesNotExist` is raised without touching the queryset. -/
def viewGetFromPath (resolveToName : String → Option String)
    (qs : List ViewRecord) (path : String) : Except GetError ViewRecord :=
  match resolveToName path with
  | Option.some viewName => querysetGetView qs viewName
  | Option.none => .error .doesNotExist

/-! ### Concrete fixtures used by witness theorems -/

/-- A call environment returning distinct values for a no-argument call to
`f` and a metadata-argument call to `g`. -/
def envW : String → List CallArg → PyVal := fun fname args =>
  if fname = "f" && args = [] then PyVal.str "F"
  else if fname = "g" && args = [CallArg.metadata] then PyVal.str "G"
  else PyVal.none

/-- A record with no explicit field values. -/
def instNone : String → PyVal := fun _ => PyVal.none

/-- A record storing an explicit value for the `title` field. -/
def instTitle : String → PyVal := fun n =>
  if n = "title" then PyVal.str "Stored" else PyVal.none

/-- A metadata group with one editable element and fallbacks that would
yield a different value if consulted. -/
def mdW1 : MetadataGroup :=
  ⟨[("title", ⟨true, PopulateFrom.literal (PyVal.str "Fallback")⟩)],
   [("title", PyVal.str "Attr")]⟩

/-- A metadata group exercising every `populate_from` branch. -/
def mdW3 : MetadataGroup :=
  ⟨[("a", ⟨false, PopulateFrom.callable true "f"⟩),
    ("b", ⟨false, PopulateFrom.callable false "g"⟩),
    ("c", ⟨false, PopulateFrom.literal (PyVal.str "L")⟩),
    ("d", ⟨false, PopulateFrom.name "c"⟩),
    ("e", ⟨false, PopulateFrom.notSet⟩)],
   [("e", PyVal.str "Attr")]⟩

/-- A metadata group whose only element resolves to a string containing
template syntax. -/
def mdTmpl : MetadataGroup :=
  ⟨[("title", ⟨false, PopulateFrom.literal (PyVal.str "x{y}")⟩)], []⟩

/-- A template renderer that replaces every template with a constant,
making the effect of the template pass observable. -/
def renderConst : String → Ctx → String := fun _ _ => "RENDERED"

/-! ### Claims about the resolution chain -/

/-- Claim C1: for every metadata record and every registered editable
element, if the record stores a truthy explicit value for that element's
name, then `_resolve_value(name)` returns the stored value; the
`populate_from` fallback and the group-level attribute lookup are not
consulted (the metadata group `md`, hence every `populate_from` policy and
every attribute, is universally quantified and absent from the result). -/
theorem C1_explicit_value_wins (env : String → List CallArg → PyVal)
    (md : MetadataGroup) (inst : String → PyVal) (name : String)
    (el : Element) (fuel : Nat)
    (helem : lookupElem md name = Option.some el)
    (hed : el.editable = true)
    (htr : (inst name).truthy = true) :
    resolve_value env md inst (fuel + 1) name = Option.some (inst name) := by
  simp [resolve_value, helem, hed, htr]

/-- Witness for C1: with the fallback and attribute set to other values,
the stored value `"Stored"` is returned. -/
theorem C1_witness :
    resolve_value envW mdW1 instTitle 1 "title" =
      Option.some (PyVal.str "Stored") :=
  C1_explicit_value_wins envW mdW1 instTitle "title"
    ⟨true, PopulateFrom.literal (PyVal.str "Fallback")⟩ 0 (by decide) rfl
    (by decide)

/-- Claim C3: for every registered element with no applicable explicit
value, `_resolve_value` dispatches on `populate_from`: a callable is
invoked (with no arguments when it is a bound method, otherwise with the
metadata group as single argument — both packaged in `callPy`); a
`Literal` yields its wrapped value; any other set value is resolved
recursively as another element name; and `NotSet` falls through to the
attribute lookup on the metadata group. -/
theorem C3_populate_from_dispatch (env : String → List CallArg → PyVal)
    (md : MetadataGroup) (inst : String → PyVal) (name : String)
    (el : Element) (fuel : Nat)
    (helem : lookupElem md name = Option.some el)
    (hnoexp : ¬(el.editable = true ∧ (inst name).truthy = true)) :
    (∀ bound fname, el.populateFrom = PopulateFrom.callable bound fname →
        resolve_value env md inst (fuel + 1) name =
          Option.some (env fname (if bound then [] else [CallArg.metadata]))) ∧
    (∀ v, el.populateFrom = PopulateFrom.literal v →
        resolve_value env md inst (fuel + 1) name = Option.some v) ∧
    (∀ s, el.populateFrom = PopulateFrom.name s →
        resolve_value env md inst (fuel + 1) name =
          resolve_value env md inst fuel s) ∧
    (el.populateFrom = PopulateFrom.notSet →
        resolve_value env md inst (fuel + 1) name =
          Option.some (attrFallback env md name)) := by
  have hb : (el.editable && (inst name).truthy) = false := by
    cases hed : el.editable <;> cases htr : (inst name).truthy <;> simp_all
  refine ⟨?_, ?_, ?_, ?_⟩
  · intro bound fname hpf
    simp [resolve_value, helem, hb, hpf, callPy]
  · intro v hpf
    simp [resolve_value, helem, hb, hpf]
  · intro s hpf
    simp [resolve_value, helem, hb, hpf]
  · intro hpf
    simp [resolve_value, helem, hb, hpf]

/-- Witness for C3: the four `populate_from` branches at concrete inputs —
bound callable (`f` called with no arguments), unbound callable (`g`
called with the metadata group), `Literal`, recursive element name, and
`NotSet` falling through to the attribute. -/
theorem C3_witness :
    resolve_value envW mdW3 instNone 1 "a" = Option.some (PyVal.str "F") ∧
    resolve_value envW mdW3 instNone 1 "b" = Option.some (PyVal.str "G") ∧
    resolve_value envW mdW3 instNone 1 "c" = Option.some (PyVal.str "L") ∧
    resolve_value envW mdW3 instNone 2 "d" =
      resolve_value envW mdW3 instNone 1 "c" ∧
    resolve_value envW mdW3 instNone 1 "e" =
      Option.some (PyVal.str "Attr") := by
  refine ⟨?_, ?_, ?_, ?_, ?_⟩
  · exact (C3_populate_from_dispatch envW mdW3 instNone "a"
      ⟨false, PopulateFrom.callable true "f"⟩ 0 (by decide) (by decide)).1
      true "f" rfl
  · exact (C3_populate_from_dispatch envW mdW3 instNone "b"
      ⟨false, PopulateFrom.callable false "g"⟩ 0 (by decide) (by decide)).1
      false "g" rfl
  · exact (C3_populate_from_dispatch envW mdW3 instNone "c"
      ⟨false, PopulateFrom.literal (PyVal.str "L")⟩ 0 (by decide)
      (by decide)).2.1 (PyVal.str "L") rfl
  · exact (C3_populate_from_dispatch envW mdW3 instNone "d"
      ⟨false, PopulateFrom.name "c"⟩ 1 (by decide) (by decide)).2.2.1 "c" rfl
  · exact ((C3_populate_from_dispatch envW mdW3 instNone "e"
      ⟨false, PopulateFrom.notSet⟩ 0 (by decide) (by decide)).2.2.2
      rfl).trans (by decide)

/-- Claim C9: for every name that is neither a registered element nor an
attribute of the metadata group, `_resolve_value` returns Python `None`
rather than raising: the `AttributeError` is swallowed and the function
falls off its end. -/
theorem C9_missing_name_returns_none (env : String → List CallArg → PyVal)
    (md : MetadataGroup) (inst : String → PyVal) (name : String)
    (fuel : Nat)
    (helem : lookupElem md name = Option.none)
    (hattr : lookupAttr md name = Option.none) :
    resolve_value env md inst (fuel + 1) name = Option.some PyVal.none := by
  simp [resolve_value, helem, attrFallback, hattr]

/-- Witness for C9: an unknown name resolves to Python `None`. -/
theorem C9_witness :
    resolve_value envW mdW1 instTitle 1 "unknown" =
      Option.some PyVal.none :=
  C9_missing_name_returns_none envW mdW1 instTitle "unknown" 0 (by decide)
    (by decide)

/-- Claim C4: `_resolve(value, model_instance, context)` is the identity on
every value that is not a string containing the character `{`; rendering
happens exactly when the value is such a string, over the context built by
`renderCtx`, which binds the model instance (when given) under its model's
module name before rendering. -/
theorem C4_resolve_identity (render : String → Ctx → String) (v : PyVal)
    (mi : Option ModelInst) (ctx : Option Ctx) :
    ((∀ s, v = PyVal.str s → containsBrace s = false) →
        pyResolve render v mi ctx = v) ∧
    (∀ s, v = PyVal.str s → containsBrace s = true →
        pyResolve render v mi ctx =
          PyVal.str (render s (renderCtx mi ctx))) ∧
    (∀ mi0, renderCtx (Option.some mi0) ctx =
        (mi0.moduleName, CtxVal.inst mi0) :: ctx.getD []) := by
  refine ⟨?_, ?_, ?_⟩
  · intro hnostr
    cases v with
    | str s =>
      have := hnostr s rfl
      simp [pyResolve, this]
    | none => simp [pyResolve]
    | func bound fname => simp [pyResolve]
  · intro s hv hbrace
    subst hv
    simp [pyResolve, hbrace]
  · intro mi0
    rfl

/-- Witness for C4: a plain string and Python `None` pass through
unchanged; a string containing `{` is rendered, and the model instance is
bound into the context under its module name. -/
theorem C4_witness :
    pyResolve renderConst (PyVal.str "plain") Option.none Option.none =
      PyVal.str "plain" ∧
    pyResolve renderConst PyVal.none Option.none Option.none =
      PyVal.none ∧
    pyResolve renderConst (PyVal.str "x{y}")
      (Option.some ⟨"page", 0⟩) Option.none = PyVal.str "RENDERED" ∧
    renderCtx (Option.some ⟨"page", 0⟩) Option.none =
      [("page", CtxVal.inst ⟨"page", 0⟩)] := by
  refine ⟨?_, ?_, ?_, ?_⟩
  · exact (C4_resolve_identity renderConst (PyVal.str "plain") Option.none
      Option.none).1 (by intro s h; cases h; decide)
  · exact (C4_resolve_identity renderConst PyVal.none Option.none
      Option.none).1 (by intro s h; cases h)
  · exact (C4_resolve_identity renderConst (PyVal.str "x{y}")
      (Option.some ⟨"page", 0⟩) Option.none).2.1 "x{y}" rfl (by decide)
  · exact (C4_resolve_identity renderConst (PyVal.str "x{y}")
      (Option.some ⟨"page", 0⟩) Option.none).2.2 ⟨"page", 0⟩

/-- Claim C2, counterexample: the Path plugin's model (and likewise the
ModelInstance plugin's) inherits `_resolve_value` unchanged, so a resolved
value containing template syntax is returned raw, not run through the
template pass — unlike what `_resolve` would produce with either form of
context injection. -/
theorem C2_counterexample :
    pathResolveValue envW mdTmpl instNone 1 "title" =
      Option.some (PyVal.str "x{y}") ∧
    modelInstanceResolveValue envW mdTmpl instNone 1 "title" =
      Option.some (PyVal.str "x{y}") ∧
    containsBrace "x{y}" = true ∧
    pyResolve renderConst (PyVal.str "x{y}") Option.none
      (Option.some []) = PyVal.str "RENDERED" ∧
    pyResolve renderConst (PyVal.str "x{y}") (Option.some ⟨"m", 0⟩)
      Option.none = PyVal.str "RENDERED" ∧
    PyVal.str "x{y}" ≠ PyVal.str "RENDERED" := by
  refine ⟨rfl, rfl, by decide, rfl, rfl, by decide⟩

/-- Claim C2 as amended: only the View and Model plugins' `_resolve_value`
run the resolved value through the template-substitution pass — the View
plugin injecting the ad-hoc context dictionary, the Model plugin binding
the model instance under its module name — while the Path and
ModelInstance plugins return the base resolution unchanged. -/
theorem C2_amended_plugin_template_pass
    (env : String → List CallArg → PyVal) (md : MetadataGroup)
    (inst : String → PyVal) (render : String → Ctx → String) (ctx : Ctx)
    (mi : ModelInst) (fuel : Nat) (name : String) :
    (∀ s, resolve_value env md inst fuel name =
        Option.some (PyVal.str s) → containsBrace s = true →
      viewResolveValue env md inst render ctx fuel name =
        Option.some (PyVal.str (render s ctx)) ∧
      modelResolveValue env md inst render mi fuel name =
        Option.some (PyVal.str
          (render s [(mi.moduleName, CtxVal.inst mi)]))) ∧
    pathResolveValue env md inst fuel name =
      resolve_value env md inst fuel name ∧
    modelInstanceResolveValue env md inst fuel name =
      resolve_value env md inst fuel name := by
  refine ⟨?_, rfl, rfl⟩
  intro s hbase hbrace
  constructor
  · simp [viewResolveValue, hbase, pyResolve, hbrace, renderCtx]
  · simp [modelResolveValue, hbase, pyResolve, hbrace, renderCtx]

/-- Witness for the amended C2: on a metadata group whose element resolves
to `"x{y}"`, the View and Model plugins render while Path and
ModelInstance do not. -/
theorem C2_amended_witness :
    viewResolveValue envW mdTmpl instNone renderConst [] 1 "title" =
      Option.some (PyVal.str "RENDERED") ∧
    modelResolveValue envW mdTmpl instNone renderConst ⟨"m", 0⟩ 1 "title" =
      Option.some (PyVal.str "RENDERED") ∧
    pathResolveValue envW mdTmpl instNone 1 "title" =
      resolve_value envW mdTmpl instNone 1 "title" := by
  refine ⟨?_, ?_, ?_⟩
  · exact ((C2_amended_plugin_template_pass envW mdTmpl instNone
      renderConst [] ⟨"m", 0⟩ 1 "title").1 "x{y}" rfl (by decide)).1
  · exact ((C2_amended_plugin_template_pass envW mdTmpl instNone
      renderConst [] ⟨"m", 0⟩ 1 "title").1 "x{y}" rfl (by decide)).2
  · exact (C2_amended_plugin_template_pass envW mdTmpl instNone
      renderConst [] ⟨"m", 0⟩ 1 "title").2.1

/-- Claim C8: `_resolve_value` terminates for every field name provided
the `populate_from` references among the registered elements form an
acyclic graph. Acyclicity of the finite reference graph is given as a rank
function decreasing along every edge (a topological rank); termination
reads: every fuel beyond the rank of the starting name yields a result,
i.e. the recursion of the Python code bottoms out. -/
theorem C8_resolve_value_terminates (env : String → List CallArg → PyVal)
    (md : MetadataGroup) (inst : String → PyVal) (rank : String → Nat)
    (hrank : ∀ a b, pfEdge md a b → rank b < rank a) :
    ∀ fuel name, rank name < fuel →
      (resolve_value env md inst fuel name).isSome = true := by
  intro fuel
  induction fuel with
  | zero => intro name h; exact absurd h (Nat.not_lt_zero _)
  | succ f ih =>
    intro name h
    cases hlk : lookupElem md name with
    | none => simp [resolve_value, hlk, attrFallback]
    | some el =>
      cases hed : el.editable && (inst name).truthy with
      | true => simp [resolve_value, hlk, hed]
      | false =>
        cases hpf : el.populateFrom with
        | notSet => simp [resolve_value, hlk, hed, hpf]
        | literal v => simp [resolve_value, hlk, hed, hpf]
        | callable bound fname => simp [resolve_value, hlk, hed, hpf]
        | name s =>
          have hedge : pfEdge md name s := ⟨el, hlk, hpf⟩
          have hs : rank s < f :=
            Nat.lt_of_lt_of_le (hrank _ _ hedge) (Nat.lt_succ_iff.mp h)
          have := ih s hs
          simpa [resolve_value, hlk, hed, hpf] using this

/-- A successful element lookup comes from the elements list. -/
theorem lookupElem_mem {md : MetadataGroup} {a : String} {el : Element}
    (h : lookupElem md a = Option.some el) : (a, el) ∈ md.elements := by
  unfold lookupElem at h
  cases hf : md.elements.find? (fun p => p.1 = a) with
  | none => rw [hf] at h; simp at h
  | some p =>
    rw [hf] at h
    simp at h
    have hmem := List.mem_of_find?_eq_some hf
    have hp : p.1 = a := by simpa using List.find?_some hf
    rw [← hp, ← h]
    exact hmem

/-- The rank placing `d` above everything else decreases along every
`populate_from` name edge of `mdW3` (the only such edge is `d → c`). -/
theorem mdW3_rank_decreasing :
    ∀ a b, pfEdge mdW3 a b →
      (if b = "d" then 1 else 0) < (if a = "d" then 1 else 0) := by
  rintro a b ⟨el, hlk, hpf⟩
  have hmem := lookupElem_mem hlk
  simp only [mdW3, List.mem_cons, List.not_mem_nil, or_false,
    Prod.mk.injEq] at hmem
  rcases hmem with ⟨ha, hel⟩ | ⟨ha, hel⟩ | ⟨ha, hel⟩ | ⟨ha, hel⟩ | ⟨ha, hel⟩
  · subst ha; subst hel; simp at hpf
  · subst ha; subst hel; simp at hpf
  · subst ha; subst hel; simp at hpf
  · subst ha; subst hel
    simp only [] at hpf
    cases hpf
    decide
  · subst ha; subst hel; simp at hpf

/-- Witness for C8: on `mdW3` (whose only `populate_from` name edge is
`d → c`) the rank counting `d` above everything else decreases along every
edge, and resolution from `d` with fuel `2` produces a result. -/
theorem C8_witness :
    (resolve_value envW mdW3 instNone 2 "d").isSome = true :=
  C8_resolve_value_terminates envW mdW3 instNone
    (fun n => if n = "d" then 1 else 0) mdW3_rank_decreasing 2 "d"
    (by decide)

/-! ### Claims about the manager and the plugins -/

/-- The "selected site" in the words of the (amended) claim: a `Site`
instance selects its own id, a non-empty string selects the site with that
domain (`Option.none` overall when no site has it, modelling the raised
`DoesNotExist`), an empty string selects no site at all, and no argument
selects `settings.SITE_ID`. -/
def specSelectedSite (sites : List (Nat × String)) (defaultSiteId : Nat) :
    SiteArg → Option (Option Nat)
  | .siteInstance i => Option.some (Option.some i)
  | .domainStr s =>
    if s = "" then Option.some Option.none
    else
      match findSiteByDomain sites s with
      | Option.some i => Option.some (Option.some i)
      | Option.none => Option.none
  | .noArg => Option.some (Option.some defaultSiteId)

/-- The claim's site condition: the record's site field is NULL or equals
the selected site (no record with a non-NULL site matches when no site is
selected). -/
def specSiteKeep (sel : Option Nat) (r : SeoRecord) : Bool :=
  match r.siteId with
  | Option.none => true
  | Option.some m =>
    match sel with
    | Option.some n => n = m
    | Option.none => false

/-- The claim's language condition: restricted to the given language
exactly when a non-empty language is provided. -/
def specLangKeep (language : Option String) (r : SeoRecord) : Bool :=
  match language with
  | Option.some l => if l ≠ "" then r.language = Option.some l else true
  | Option.none => true

/-- The membership condition of the (amended) claim C5, written from its
words: site condition and language condition. -/
def specKeep (sel : Option Nat) (language : Option String)
    (r : SeoRecord) : Bool :=
  specSiteKeep sel r && specLangKeep language r

/-- Claim C5 as amended: whenever the site argument determines a selection
(`specSelectedSite` succeeds — a `Site` instance, a known non-empty
domain, an empty string, or no argument), `for_site_and_language` returns
exactly the records whose site field is NULL or equals the selected site
(an empty-string argument selecting no site, so that only NULL-site
records match), further restricted to the given language exactly when a
non-empty language is provided. -/
theorem C5_amended_for_site_and_language (sites : List (Nat × String))
    (defaultSiteId : Nat) (records : List SeoRecord) (arg : SiteArg)
    (language : Option String) (sel : Option Nat)
    (hsel : specSelectedSite sites defaultSiteId arg = Option.some sel) :
    for_site_and_language sites defaultSiteId records arg language =
      Except.ok (records.filter (specKeep sel language)) := by
  have hparam : ∃ p, onCurrentSiteParam sites defaultSiteId arg =
      Except.ok p ∧ ∀ r, siteWhere p r = specSiteKeep sel r := by
    cases arg with
    | siteInstance i =>
      simp only [specSelectedSite, Option.some.injEq] at hsel
      subst hsel
      exact ⟨.intId i, rfl, fun r => by
        cases hr : r.siteId <;> simp [siteWhere, specSiteKeep, hr]⟩
    | noArg =>
      simp only [specSelectedSite, Option.some.injEq] at hsel
      subst hsel
      exact ⟨.intId defaultSiteId, rfl, fun r => by
        cases hr : r.siteId <;> simp [siteWhere, specSiteKeep, hr]⟩
    | domainStr s =>
      by_cases hs : s = ""
      · subst hs
        simp only [specSelectedSite, if_true, reduceIte,
          Option.some.injEq] at hsel
        subst hsel
        exact ⟨.emptyStr, by simp [onCurrentSiteParam], fun r => by
          cases hr : r.siteId <;> simp [siteWhere, specSiteKeep, hr]⟩
      · cases hd : findSiteByDomain sites s with
        | none => simp [specSelectedSite, hs, hd] at hsel
        | some i =>
          simp only [specSelectedSite, hd, if_neg hs,
            Option.some.injEq] at hsel
          subst hsel
          exact ⟨.intId i, by simp [onCurrentSiteParam, hs, hd], fun r => by
            cases hr : r.siteId <;> simp [siteWhere, specSiteKeep, hr]⟩
  obtain ⟨p, hp, hkeep⟩ := hparam
  unfold for_site_and_language onCurrentSite
  rw [hp]
  simp only [Except.map]
  cases language with
  | none =>
    have : records.filter (siteWhere p) =
        records.filter (specKeep sel Option.none) := by
      apply List.filter_congr
      intro r _
      simp [specKeep, specLangKeep, hkeep r]
    simp [this]
  | some l =>
    by_cases hl : l = ""
    · subst hl
      have : records.filter (siteWhere p) =
          records.filter (specKeep sel (Option.some "")) := by
        apply List.filter_congr
        intro r _
        simp [specKeep, specLangKeep, hkeep r]
      simp [this]
    · have hmain : (records.filter (siteWhere p)).filter
          (fun r => r.language = Option.some l) =
          records.filter (specKeep sel (Option.some l)) := by
        rw [List.filter_filter]
        apply List.filter_congr
        intro r _
        simp [specKeep, specLangKeep, hkeep r, hl, Bool.and_comm]
      simp [hl, hmain]

/-- Witness for the amended C5: a domain-string argument with a language,
on a mixed set of records, keeps exactly the NULL-site record and the
matching-site record carrying the requested language. -/
theorem C5_witness :
    for_site_and_language [(3, "example.com")] 1
      [⟨Option.none, Option.some "de", 0⟩,
       ⟨Option.some 3, Option.some "de", 1⟩,
       ⟨Option.some 3, Option.some "en", 2⟩,
       ⟨Option.some 4, Option.some "de", 3⟩]
      (SiteArg.domainStr "example.com") (Option.some "de") =
      Except.ok
        [⟨Option.none, Option.some "de", 0⟩,
         ⟨Option.some 3, Option.some "de", 1⟩] :=
  (C5_amended_for_site_and_language [(3, "example.com")] 1
    [⟨Option.none, Option.some "de", 0⟩,
     ⟨Option.some 3, Option.some "de", 1⟩,
     ⟨Option.some 3, Option.some "en", 2⟩,
     ⟨Option.some 4, Option.some "de", 3⟩]
    (SiteArg.domainStr "example.com") (Option.some "de") (Option.some 3)
    (by decide)).trans rfl

/-- Claim C5, counterexample: with a sites table containing a site whose
domain is the empty string, calling with that (empty) domain string does
not select that site — `site and Site.objects.get(domain=site).id`
short-circuits, the SQL parameter becomes the empty string, and the record
carrying that site's id is excluded, although the claim says a string
argument selects the site with that domain. -/
theorem C5_counterexample :
    findSiteByDomain [(7, "")] "" = Option.some 7 ∧
    (⟨Option.some 7, Option.none, 1⟩ : SeoRecord).siteId = Option.some 7 ∧
    for_site_and_language [(7, "")] 1
      [⟨Option.none, Option.none, 0⟩, ⟨Option.some 7, Option.none, 1⟩]
      (SiteArg.domainStr "") Option.none =
      Except.ok [⟨Option.none, Option.none, 0⟩] ∧
    (⟨Option.some 7, Option.none, 1⟩ : SeoRecord) ∉
      [(⟨Option.none, Option.none, 0⟩ : SeoRecord)] := by
  refine ⟨rfl, rfl, rfl, by decide⟩

/-- Claim C6: `get_unique_together` produces one uniqueness tuple per
key-set declared by the plugin — `('_path',)` for Path, `('_view',)` for
View, `('_path',)` and `('_content_type', '_object_id')` for
ModelInstance, `('_content_type',)` for Model — each extended with
`_site` exactly when `use_sites` is enabled and with `_language` exactly
when `use_i18n` is enabled, in the declared order. -/
theorem C6_get_unique_together (useSites useI18n : Bool) :
    get_unique_together pathUniqueTogether useSites useI18n =
      [["_path"] ++ (if useSites then ["_site"] else []) ++
        (if useI18n then ["_language"] else [])] ∧
    get_unique_together viewUniqueTogether useSites useI18n =
      [["_view"] ++ (if useSites then ["_site"] else []) ++
        (if useI18n then ["_language"] else [])] ∧
    get_unique_together modelInstanceUniqueTogether useSites useI18n =
      [["_path"] ++ (if useSites then ["_site"] else []) ++
        (if useI18n then ["_language"] else []),
       ["_content_type", "_object_id"] ++
        (if useSites then ["_site"] else []) ++
        (if useI18n then ["_language"] else [])] ∧
    get_unique_together modelUniqueTogether useSites useI18n =
      [["_content_type"] ++ (if useSites then ["_site"] else []) ++
        (if useI18n then ["_language"] else [])] := by
  cases useSites <;> cases useI18n <;> decide

/-- Claim C7: the View plugin's `get_from_path` raises the model's
`DoesNotExist` without consulting the queryset when the path does not
resolve to a named view (the result is the same for every queryset), and
otherwise performs `queryset.get(_view=view_name)`: the unique matching
record, or the query's `DoesNotExist` when no record matches. -/
theorem C7_view_get_from_path (resolveToName : String → Option String)
    (qs : List ViewRecord) (path : String) :
    (resolveToName path = Option.none →
        viewGetFromPath resolveToName qs path =
          Except.error GetError.doesNotExist) ∧
    (∀ viewName, resolveToName path = Option.some viewName →
        viewGetFromPath resolveToName qs path =
          querysetGetView qs viewName) ∧
    (∀ viewName r, resolveToName path = Option.some viewName →
        qs.filter (fun x => x.view = viewName) = [r] →
        viewGetFromPath resolveToName qs path = Except.ok r) ∧
    (∀ viewName, resolveToName path = Option.some viewName →
        qs.filter (fun x => x.view = viewName) = [] →
        viewGetFromPath resolveToName qs path =
          Except.error GetError.doesNotExist) := by
  refine ⟨?_, ?_, ?_, ?_⟩
  · intro h
    simp [viewGetFromPath, h]
  · intro v h
    simp [viewGetFromPath, h]
  · intro v r h hf
    simp [viewGetFromPath, h, querysetGetView, hf]
  · intro v h hf
    simp [viewGetFromPath, h, querysetGetView, hf]

/-- A path resolver knowing a single named view. -/
def rtnW : String → Option String := fun p =>
  if p = "/about/" then Option.some "about" else Option.none

/-- A queryset of two view records. -/
def qsW : List ViewRecord := [⟨"about", 0⟩, ⟨"home", 1⟩]

/-- Witness for C7: an unresolvable path yields `DoesNotExist` on two
different querysets alike; a resolvable path yields the unique matching
record, and `DoesNotExist` on an empty queryset. -/
theorem C7_witness :
    viewGetFromPath rtnW qsW "/nope/" =
      Except.error GetError.doesNotExist ∧
    viewGetFromPath rtnW [] "/nope/" =
      Except.error GetError.doesNotExist ∧
    viewGetFromPath rtnW qsW "/about/" = Except.ok ⟨"about", 0⟩ ∧
    viewGetFromPath rtnW [] "/about/" =
      Except.error GetError.doesNotExist := by
  refine ⟨?_, ?_, ?_, ?_⟩
  · exact (C7_view_get_from_path rtnW qsW "/nope/").1 rfl
  · exact (C7_view_get_from_path rtnW [] "/nope/").1 rfl
  · exact (C7_view_get_from_path rtnW qsW "/about/").2.2.1 "about"
      ⟨"about", 0⟩ rfl (by decide)
  · exact (C7_view_get_from_path rtnW [] "/about/").2.2.2 "about" rfl rfl

/-- Claim C10: in the models synthesized by the Path, View and
ModelInstance plugins, the lookup-key column (`_path` or `_view`) carries
a field-level unique constraint exactly when both the site axis and the
i18n axis are disabled; when either axis is enabled, the field-level flag
is off and the key column is covered only by the combined
`unique_together` tuples (which still contain it). -/
theorem C10_field_level_unique (useSites useI18n : Bool) :
    (pathFieldUnique useSites useI18n = true ↔
      useSites = false ∧ useI18n = false) ∧
    (viewFieldUnique useSites useI18n = true ↔
      useSites = false ∧ useI18n = false) ∧
    (modelInstancePathFieldUnique useSites useI18n = true ↔
      useSites = false ∧ useI18n = false) ∧
    ((useSites = true ∨ useI18n = true) →
      pathFieldUnique useSites useI18n = false ∧
      viewFieldUnique useSites useI18n = false ∧
      modelInstancePathFieldUnique useSites useI18n = false ∧
      (get_unique_together pathUniqueTogether useSites useI18n).any
        (fun t => t.contains "_path") = true ∧
      (get_unique_together viewUniqueTogether useSites useI18n).any
        (fun t => t.contains "_view") = true ∧
      (get_unique_together modelInstanceUniqueTogether useSites
        useI18n).any (fun t => t.contains "_path") = true) := by
  cases useSites <;> cases useI18n <;> decide

/-- Witness for C10: with the site axis enabled, the field-level flags are
off and each key column appears in its plugin's `unique_together`. -/
theorem C10_witness :
    pathFieldUnique true false = false ∧
    viewFieldUnique true false = false ∧
    modelInstancePathFieldUnique true false = false ∧
    (get_unique_together pathUniqueTogether true false).any
      (fun t => t.contains "_path") = true ∧
    (get_unique_together viewUniqueTogether true false).any
      (fun t => t.contains "_view") = true ∧
    (get_unique_together modelInstanceUniqueTogether true false).any
      (fun t => t.contains "_path") = true :=
  (C10_field_level_unique true false).2.2.2 (Or.inl rfl)

end DjangoSeo
